import Mathlib

/-
Verification of the inference-client / response-normalizer core of the
AI-Pictionary repository (module `src/lib/ollama.ts`, here `part_000`).

The TypeScript source is shallowly embedded: strings are processed as
`List Char` with structural recursion mirroring the JavaScript string
operations the source uses (`split`, `trim`, `toLowerCase`, `includes`,
and the three anchored regex replaces of `extractGuess`), and the
network layer is abstracted into a `FetchOutcome` value describing how
the single `fetch` of `guessDrawing` ended.
-/

/-- Whitespace test used to model both JavaScript `String.prototype.trim`
and the regex class `\s` (the inputs of interest are ASCII). -/
def isWs (c : Char) : Bool := c.isWhitespace

/-- Model of JavaScript `s.trim()`: drop leading and trailing whitespace. -/
def trimL (l : List Char) : List Char :=
  ((l.dropWhile isWs).reverse.dropWhile isWs).reverse

/-- `trimL` lifted to `String`. -/
def trimS (s : String) : String := String.mk (trimL s.data)

/-- Model of JavaScript `s.toLowerCase()` (ASCII-relevant part). -/
def toLowerL (l : List Char) : List Char := l.map Char.toLower

/-- Model of JavaScript `l.includes(pat)`: `pat` occurs as a contiguous
substring of `l`. -/
def includesSub (l pat : List Char) : Bool :=
  match l with
  | [] => pat.isPrefixOf ([] : List Char)
  | _ :: t => pat.isPrefixOf l || includesSub t pat

/-- Model of JavaScript `s.split('\n')` (source line 162). -/
def splitLines : List Char → List (List Char)
  | [] => [[]]
  | c :: t =>
    if c = '\n' then [] :: splitLines t
    else
      match splitLines t with
      | [] => [[c]]
      | h :: r => (c :: h) :: r

/-- The candidate lines of a reply: split on newline, trim each line and
drop blank lines (source lines 161-164, `filter(Boolean)`). -/
def candidateLines (l : List Char) : List (List Char) :=
  ((splitLines l).map trimL).filter (fun x => x ≠ [])

/-- Condition under which `extractGuess` skips a line (source lines
221-228): its lowercase form contains "high", "medium" or "low". -/
def keywordLine (line : List Char) : Bool :=
  includesSub (toLowerL line) "high".data ||
  includesSub (toLowerL line) "medium".data ||
  includesSub (toLowerL line) "low".data

/-- Model of the anchored replace `line.replace(/^<label>\s*[:\-]\s*/i, '')`
used for the labels "guess" and "answer" (source lines 231-232): the label
case-insensitively, optional whitespace, a colon or dash, optional
whitespace.  If the pattern does not match at the start, the line is
returned unchanged. -/
def stripLabelPrefixC (label : List Char) (l : List Char) : List Char :=
  if toLowerL (l.take label.length) = label then
    match (l.drop label.length).dropWhile isWs with
    | c :: rest => if c = ':' ∨ c = '-' then rest.dropWhile isWs else l
    | [] => l
  else l

/-- Model of the anchored replace `line.replace(/^it\s+is\s+/i, '')`
(source line 233): "it", at least one whitespace, "is", at least one
whitespace, all case-insensitively; unchanged when no match. -/
def stripItIsPrefixC (l : List Char) : List Char :=
  if toLowerL (l.take 2) = ['i', 't'] then
    match l.drop 2 with
    | c :: rest =>
      if isWs c then
        let r := (c :: rest).dropWhile isWs
        if toLowerL (r.take 2) = ['i', 's'] then
          match r.drop 2 with
          | d :: rest₂ => if isWs d then (d :: rest₂).dropWhile isWs else l
          | [] => l
        else l
      else l
    | [] => l
  else l

/-- The cleaning chain of `extractGuess` (source lines 230-234): strip a
"guess" label, then an "answer" label, then an "it is " lead-in, then trim. -/
def cleanGuessLine (l : List Char) : List Char :=
  trimL (stripItIsPrefixC (stripLabelPrefixC "answer".data (stripLabelPrefixC "guess".data l)))

/-- `extractGuess` (source lines 219-242): scan the candidate lines in
order, skip confidence-keyword lines, return the first line that cleans
to something non-empty; empty when no line qualifies. -/
def extractGuessC : List (List Char) → List Char
  | [] => []
  | line :: rest =>
    if keywordLine line then extractGuessC rest
    else
      let cleaned := cleanGuessLine line
      if cleaned ≠ [] then cleaned else extractGuessC rest

/-- The three confidence levels of the source union type. -/
inductive Confidence
  | high
  | medium
  | low
deriving DecidableEq, Repr

/-- The keyword whose presence makes `extractConfidence` pick a level. -/
def confKeyword : Confidence → String
  | .high => "high"
  | .medium => "medium"
  | .low => "low"

/-- `extractConfidence` (source lines 244-252): scan all candidate lines
in order; on each line check "high", then "medium", then "low" as
substrings of the lowercase line; `none` when no line matches. -/
def extractConfidenceC : List (List Char) → Option Confidence
  | [] => none
  | line :: rest =>
    if includesSub (toLowerL line) "high".data then some .high
    else if includesSub (toLowerL line) "medium".data then some .medium
    else if includesSub (toLowerL line) "low".data then some .low
    else extractConfidenceC rest

/-- `GuessResult` (source lines 45-49). -/
structure GuessResult where
  guess : String
  confidence : Confidence
  duration_ms : Nat
deriving DecidableEq, Repr

/-- `OllamaError` (source lines 51-59): a string error code plus a message.
The source stores the code as a plain string field, not an enum. -/
structure OllamaError where
  code : String
  message : String
deriving DecidableEq, Repr

instance {ε α : Type} [DecidableEq ε] [DecidableEq α] : DecidableEq (Except ε α) :=
  fun a b =>
    match a, b with
    | .ok x, .ok y =>
      if h : x = y then .isTrue (by rw [h]) else .isFalse (fun hc => h (Except.ok.inj hc))
    | .ok _, .error _ => .isFalse (fun hc => Except.noConfusion hc)
    | .error _, .ok _ => .isFalse (fun hc => Except.noConfusion hc)
    | .error x, .error y =>
      if h : x = y then .isTrue (by rw [h]) else .isFalse (fun hc => h (Except.error.inj hc))

/-- The assistant message of an Ollama response (source lines 27-30). -/
structure OllamaResponseMessage where
  content : String
deriving DecidableEq, Repr

/-- The fields of an Ollama `/api/chat` response that `guessDrawing`
reads (source lines 32-38); `total_duration` is in nanoseconds. -/
structure OllamaResponse where
  message : Option OllamaResponseMessage
  response : Option String
  total_duration : Option Nat
deriving DecidableEq, Repr

/-- `extractResponseContent` (source lines 209-217): prefer the trimmed
`message.content`, fall back to the trimmed `response` field, else empty. -/
def extractResponseContent (data : OllamaResponse) : String :=
  let messageContent := trimS ((data.message.map OllamaResponseMessage.content).getD "")
  if messageContent ≠ "" then messageContent
  else
    let fallbackResponse := trimS (data.response.getD "")
    if fallbackResponse ≠ "" then fallbackResponse else ""

/-- `Math.round((data.total_duration ?? 0) / 1_000_000)` (source line 149):
nanoseconds to whole milliseconds, rounding half up. -/
def durationMs (data : OllamaResponse) : Nat :=
  (data.total_duration.getD 0 + 500000) / 1000000

/-- The parsing block of `guessDrawing` (source lines 151-178), applied to
the already-trimmed reply text: empty text succeeds as "unclear"/low;
otherwise extract guess and confidence from the candidate lines, fail
with `EMPTY_GUESS` when the extracted guess is empty. -/
def parseContent (rawContent : String) (duration_ms : Nat) : Except OllamaError GuessResult :=
  if rawContent = "" then
    .ok ⟨"unclear", .low, duration_ms⟩
  else if extractGuessC (candidateLines rawContent.data) = [] then
    .error ⟨"EMPTY_GUESS", "Ollama returned empty guess"⟩
  else
    .ok ⟨String.mk (extractGuessC (candidateLines rawContent.data)),
         (extractConfidenceC (candidateLines rawContent.data)).getD .medium,
         duration_ms⟩

/-- The Response Normalizer as a function of the raw reply text and the
computed duration: the trim applied by `extractResponseContent` (source
line 210) composed with the parsing block of source lines 151-178. -/
def normalizer (raw : String) (d : Nat) : Except OllamaError GuessResult :=
  parseContent (trimS raw) d

/-- How the single `fetch` of `guessDrawing` (source lines 104-116) can
end, abstracting the network.  `aborted` is the `AbortError` raised when
the 120-second timer of source line 105 fires before the backend
answers; `networkFailure` is a `TypeError` thrown by `fetch` itself;
`httpError` is a completed exchange with a non-2xx status, carrying the
attempt to read a JSON error body (`none` = body unparseable,
`some none` = parsed body without an `error` field, `some (some m)` =
parsed body with `error` field `m`); `httpOkBadJson` is a 2xx exchange
whose body fails to parse as JSON (the thrown `SyntaxError` message);
`httpOk` is a 2xx exchange with a parsed body. -/
inductive FetchOutcome
  | aborted
  | networkFailure (msg : String)
  | httpError (status : Nat) (errBody : Option (Option String))
  | httpOkBadJson (msg : String)
  | httpOk (data : OllamaResponse)

/-- The error-message selection of source lines 119-127: use the body's
`error` field when present and non-empty (JavaScript truthiness), else
the generic status message. -/
def errorMessageFor (status : Nat) (errBody : Option (Option String)) : String :=
  match errBody with
  | some (some m) => if m = "" then "Ollama API returned status " ++ toString status else m
  | _ => "Ollama API returned status " ++ toString status

/-- The 120000-millisecond deadline of source line 105
(`setTimeout(() => controller.abort(), 120000)`); its expiry is the
`FetchOutcome.aborted` case. -/
def timeoutMs : Nat := 120000

/-- The regex `/^data:[^;]+;base64,/` of the strip function (source line 66):
"data:", then at least one non-semicolon character, then ";base64,".
Returns the remainder after the matched prefix, or `none` when the
pattern does not match at the start. -/
def matchDataUri (l : List Char) : Option (List Char) :=
  if ("data:".data).isPrefixOf l then
    if (l.drop 5).takeWhile (fun c => !(c == ';')) ≠ [] ∧
       (";base64,".data).isPrefixOf ((l.drop 5).dropWhile (fun c => !(c == ';'))) then
      some (((l.drop 5).dropWhile (fun c => !(c == ';'))).drop 8)
    else none
  else none

/-- `stripDataUriPrefix` (source lines 65-68): remove a leading
`data:<mime>;base64,` header if present, else return the input unchanged. -/
def stripDataUriPrefix (base64 : String) : String :=
  match matchDataUri base64.data with
  | some rest => String.mk rest
  | none => base64

/-- `guessDrawing` (source lines 75-207) as a function of how its fetch
ended: the error normalization of lines 118-145 and 179-206, and on
success the content extraction and parsing of lines 147-178. -/
def guessDrawing (outcome : FetchOutcome) : Except OllamaError GuessResult :=
  match outcome with
  | .httpError status errBody =>
    if status = 404 then
      .error ⟨"MODEL_NOT_FOUND",
              "Ollama model \x27qwen3-vl\x27 not found: " ++ errorMessageFor status errBody⟩
    else if status = 500 then
      .error ⟨"OLLAMA_SERVER_ERROR", "Ollama server error: " ++ errorMessageFor status errBody⟩
    else
      .error ⟨"OLLAMA_API_ERROR", "Ollama API error: " ++ errorMessageFor status errBody⟩
  | .aborted =>
    .error ⟨"TIMEOUT", "Ollama API request timed out after 120 seconds"⟩
  | .networkFailure msg =>
    .error ⟨"NETWORK_ERROR", "Failed to connect to Ollama API: " ++ msg⟩
  | .httpOkBadJson msg =>
    .error ⟨"UNKNOWN_ERROR", "Unexpected error: " ++ msg⟩
  | .httpOk data =>
    parseContent (extractResponseContent data) (durationMs data)

/-- `WORD_LIST` (component `GameControls`, `part_002` lines 3-10): the
sixty words the game asks the player to draw. -/
def WORD_LIST : List String :=
  ["cat", "dog", "house", "tree", "sun", "moon", "star", "car", "fish", "bird",
   "flower", "mountain", "boat", "hat", "shoe", "book", "clock", "chair", "table", "lamp",
   "apple", "banana", "pizza", "cake", "ice cream", "guitar", "piano", "drum", "rocket", "airplane",
   "bicycle", "umbrella", "rainbow", "cloud", "rain", "snow", "fire", "heart", "diamond", "crown",
   "sword", "shield", "castle", "bridge", "train", "bus", "helicopter", "balloon", "kite", "spider",
   "butterfly", "snake", "elephant", "lion", "monkey", "penguin", "whale", "octopus", "crab", "turtle"]


/-! Helper lemmas (shared between the claim theorems). -/

lemma mk_data (s : String) : String.mk s.data = s := by
  cases s
  rfl

lemma data_ne_nil (s : String) (h : s ≠ "") : s.data ≠ [] := by
  intro hd
  apply h
  cases s with
  | mk d =>
    cases hd
    rfl

lemma strDataAppend (s t : String) : (s ++ t).data = s.data ++ t.data := by
  cases s
  cases t
  rfl

lemma mk_eq_empty_iff (g : List Char) : String.mk g = "" ↔ g = [] := by
  constructor
  · intro h
    have := congrArg String.data h
    simpa using this
  · intro h
    rw [h]

lemma isPrefixOf_self (l : List Char) : l.isPrefixOf l = true := by
  induction l with
  | nil => rfl
  | cons c t ih => simp [List.isPrefixOf, ih]

lemma isPrefixOf_append_self (l t : List Char) : l.isPrefixOf (l ++ t) = true := by
  induction l with
  | nil => simp [List.isPrefixOf]
  | cons c r ih => simp [List.isPrefixOf, ih]

lemma includesSub_append (pre pat : List Char) : includesSub (pre ++ pat) pat = true := by
  induction pre with
  | nil =>
    cases pat with
    | nil => rfl
    | cons c t =>
      show includesSub (c :: t) (c :: t) = true
      unfold includesSub
      rw [isPrefixOf_self]
      rfl
  | cons x pre ih =>
    show includesSub (x :: (pre ++ pat)) pat = true
    unfold includesSub
    rw [ih, Bool.or_true]

lemma takeWhile_no_semi (m t : List Char) (h : ∀ c ∈ m, c ≠ ';') :
    (m ++ ';' :: t).takeWhile (fun c => !(c == ';')) = m := by
  induction m with
  | nil => simp [List.takeWhile]
  | cons c m ih =>
    have hc : c ≠ ';' := h c (by simp)
    simp only [List.cons_append, List.takeWhile]
    rw [show (!(c == ';')) = true by simp [hc]]
    exact congrArg (c :: ·) (ih fun x hx => h x (by simp [hx]))

lemma dropWhile_no_semi (m t : List Char) (h : ∀ c ∈ m, c ≠ ';') :
    (m ++ ';' :: t).dropWhile (fun c => !(c == ';')) = ';' :: t := by
  induction m with
  | nil => simp [List.dropWhile]
  | cons c m ih =>
    have hc : c ≠ ';' := h c (by simp)
    simp only [List.cons_append, List.dropWhile]
    rw [show (!(c == ';')) = true by simp [hc]]
    exact ih fun x hx => h x (by simp [hx])

lemma parseContent_empty (d : Nat) : parseContent "" d = .ok ⟨"unclear", .low, d⟩ := by
  unfold parseContent
  rw [if_pos rfl]

lemma parseContent_error_intro (raw : String) (d : Nat) (hne : raw ≠ "")
    (hg : extractGuessC (candidateLines raw.data) = []) :
    parseContent raw d = .error ⟨"EMPTY_GUESS", "Ollama returned empty guess"⟩ := by
  unfold parseContent
  rw [if_neg hne, if_pos hg]

lemma parseContent_ok_inv (raw : String) (d : Nat) (r : GuessResult) (hne : raw ≠ "")
    (h : parseContent raw d = .ok r) :
    extractGuessC (candidateLines raw.data) ≠ [] ∧
    r = ⟨String.mk (extractGuessC (candidateLines raw.data)),
         (extractConfidenceC (candidateLines raw.data)).getD .medium, d⟩ := by
  unfold parseContent at h
  rw [if_neg hne] at h
  by_cases hg : extractGuessC (candidateLines raw.data) = []
  · rw [if_pos hg] at h
    exact absurd h (fun hc => Except.noConfusion hc)
  · rw [if_neg hg] at h
    exact ⟨hg, (Except.ok.inj h).symm⟩

lemma parseContent_error_inv (raw : String) (d : Nat) (e : OllamaError)
    (h : parseContent raw d = .error e) :
    raw ≠ "" ∧ extractGuessC (candidateLines raw.data) = [] ∧
    e = ⟨"EMPTY_GUESS", "Ollama returned empty guess"⟩ := by
  unfold parseContent at h
  by_cases hne : raw = ""
  · rw [if_pos hne] at h
    exact absurd h (fun hc => Except.noConfusion hc)
  · rw [if_neg hne] at h
    by_cases hg : extractGuessC (candidateLines raw.data) = []
    · rw [if_pos hg] at h
      exact ⟨hne, hg, (Except.error.inj h).symm⟩
    · rw [if_neg hg] at h
      exact absurd h (fun hc => Except.noConfusion hc)

lemma trimS_empty : trimS "" = "" := rfl

lemma extractResponseContent_message (raw : String) (td : Option Nat) :
    extractResponseContent ⟨some ⟨raw⟩, none, td⟩ = trimS raw := by
  by_cases h : trimS raw = ""
  · simp [extractResponseContent, h, trimS_empty]
  · simp [extractResponseContent, h]

lemma guessDrawing_httpOk_message (raw : String) (td : Option Nat) :
    guessDrawing (.httpOk ⟨some ⟨raw⟩, none, td⟩) =
      normalizer raw (durationMs ⟨some ⟨raw⟩, none, td⟩) := by
  simp [guessDrawing, normalizer, extractResponseContent_message]

lemma keywordLine_false_parts (l : List Char) (h : keywordLine l = false) :
    includesSub (toLowerL l) "high".data = false ∧
    includesSub (toLowerL l) "medium".data = false ∧
    includesSub (toLowerL l) "low".data = false := by
  simpa [keywordLine, and_assoc] using h

lemma extractConfidenceC_cons_skip (l : List Char) (lines : List (List Char))
    (h : keywordLine l = false) :
    extractConfidenceC (l :: lines) = extractConfidenceC lines := by
  obtain ⟨h1, h2, h3⟩ := keywordLine_false_parts l h
  simp [extractConfidenceC, h1, h2, h3]

lemma extractConfidenceC_append_skip (pre lines : List (List Char))
    (h : ∀ p ∈ pre, keywordLine p = false) :
    extractConfidenceC (pre ++ lines) = extractConfidenceC lines := by
  induction pre with
  | nil => rfl
  | cons p pre ih =>
    rw [List.cons_append, extractConfidenceC_cons_skip p _ (h p (by simp))]
    exact ih fun x hx => h x (by simp [hx])

lemma extractConfidenceC_none (lines : List (List Char))
    (h : ∀ l ∈ lines, keywordLine l = false) : extractConfidenceC lines = none := by
  induction lines with
  | nil => rfl
  | cons l lines ih =>
    rw [extractConfidenceC_cons_skip l _ (h l (by simp))]
    exact ih fun x hx => h x (by simp [hx])

lemma extractConfidenceC_keyword_head (l : List Char) (lines : List (List Char))
    (h : keywordLine l = true) :
    ∃ c, extractConfidenceC (l :: lines) = some c ∧
      includesSub (toLowerL l) (confKeyword c).data = true := by
  by_cases h1 : includesSub (toLowerL l) "high".data = true
  · exact ⟨.high, by simp [extractConfidenceC, h1], h1⟩
  · by_cases h2 : includesSub (toLowerL l) "medium".data = true
    · exact ⟨.medium, by simp [extractConfidenceC, h1, h2], h2⟩
    · by_cases h3 : includesSub (toLowerL l) "low".data = true
      · exact ⟨.low, by simp [extractConfidenceC, h1, h2, h3], h3⟩
      · exact absurd h (by simp [keywordLine, h1, h2, h3])

lemma extractGuessC_all_keyword (lines : List (List Char))
    (h : ∀ l ∈ lines, keywordLine l = true) : extractGuessC lines = [] := by
  induction lines with
  | nil => rfl
  | cons l lines ih =>
    unfold extractGuessC
    rw [if_pos (h l (by simp))]
    exact ih fun x hx => h x (by simp [hx])

lemma drop_len_append (l t : List Char) : (l ++ t).drop l.length = t := by
  induction l with
  | nil => rfl
  | cons c r ih => simp [ih]

lemma matchDataUri_strip (mime rest : String) (hm : mime ≠ "")
    (hsemi : ∀ c ∈ mime.data, c ≠ ';') :
    matchDataUri ("data:" ++ mime ++ ";base64," ++ rest).data = some rest.data := by
  have hsb : (";base64,".data : List Char) = ';' :: "base64,".data := rfl
  have hdata : ("data:" ++ mime ++ ";base64," ++ rest).data
      = "data:".data ++ (mime.data ++ ';' :: ("base64,".data ++ rest.data)) := by
    rw [strDataAppend, strDataAppend, strDataAppend, hsb]
    simp [List.append_assoc]
  rw [hdata]
  unfold matchDataUri
  rw [if_pos (isPrefixOf_append_self _ _)]
  have hdrop5 : ("data:".data ++ (mime.data ++ ';' :: ("base64,".data ++ rest.data))).drop 5
      = mime.data ++ ';' :: ("base64,".data ++ rest.data) :=
    drop_len_append "data:".data _
  rw [hdrop5, takeWhile_no_semi mime.data _ hsemi, dropWhile_no_semi mime.data _ hsemi]
  have hcons : (';' :: ("base64,".data ++ rest.data) : List Char)
      = ";base64,".data ++ rest.data := rfl
  have hpre : (";base64,".data).isPrefixOf (';' :: ("base64,".data ++ rest.data)) = true := by
    rw [hcons]
    exact isPrefixOf_append_self _ _
  rw [if_pos ⟨data_ne_nil mime hm, hpre⟩]
  have hdrop8 : (';' :: ("base64,".data ++ rest.data) : List Char).drop 8 = rest.data := by
    rw [hcons]
    exact drop_len_append ";base64,".data _
  rw [hdrop8]

/-! Claim theorems. -/

/-- Claim C1, counterexample: on the raw reply text joining "It is a cat"
and "high", the normalizer succeeds with guess "a cat" — the leading
article survives the stripping of the "it is " lead-in — so the guess is
not exactly "cat". -/
theorem c1_counterexample :
    normalizer "It is a cat\nhigh" 0 = .ok ⟨"a cat", .high, 0⟩ ∧
    ("a cat" : String) ≠ "cat" := by
  decide

/-- Claim C1, amended: for the raw reply text joining "It is a cat" and
"high", the normalizer succeeds with guess "a cat" (the "it is " lead-in
stripped, the confidence line skipped) and confidence high, whatever the
duration. -/
theorem c1_it_is_guess (d : Nat) :
    normalizer "It is a cat\nhigh" d = .ok ⟨"a cat", .high, d⟩ := by
  have ht : trimS "It is a cat\nhigh" = "It is a cat\nhigh" := by decide
  simp only [normalizer, ht]
  unfold parseContent
  rw [if_neg (by decide : ¬("It is a cat\nhigh" : String) = ""),
      if_neg (by decide : ¬extractGuessC (candidateLines ("It is a cat\nhigh" : String).data) = []),
      show extractGuessC (candidateLines ("It is a cat\nhigh" : String).data) = "a cat".data from
        by decide,
      show extractConfidenceC (candidateLines ("It is a cat\nhigh" : String).data)
          = some Confidence.high from by decide]
  rfl

/-- Claim C2, counterexample: a completed HTTP exchange whose status is
neither 2xx nor 404 nor 500 (here 400) fails with kind OLLAMA_API_ERROR,
a kind outside the six-kind enumeration of the claim. -/
theorem c2_counterexample :
    guessDrawing (.httpError 400 (some (some "bad request"))) =
      .error ⟨"OLLAMA_API_ERROR", "Ollama API error: bad request"⟩ ∧
    ("OLLAMA_API_ERROR" : String) ∉
      (["MODEL_NOT_FOUND", "OLLAMA_SERVER_ERROR", "TIMEOUT", "NETWORK_ERROR",
        "EMPTY_GUESS", "UNKNOWN_ERROR"] : List String) := by
  decide

/-- Claim C2, amended: every failure of the guess operation is a typed
OllamaError whose code is drawn from the closed seven-kind set that adds
OLLAMA_API_ERROR (for completed non-2xx statuses other than 404 and 500)
to the six kinds of the claim. -/
theorem c2_error_code_closed (o : FetchOutcome) (e : OllamaError)
    (h : guessDrawing o = .error e) :
    e.code ∈ (["MODEL_NOT_FOUND", "OLLAMA_SERVER_ERROR", "OLLAMA_API_ERROR", "TIMEOUT",
               "NETWORK_ERROR", "EMPTY_GUESS", "UNKNOWN_ERROR"] : List String) := by
  cases o with
  | aborted =>
    simp only [guessDrawing] at h
    obtain rfl := Except.error.inj h
    simp
  | networkFailure m =>
    simp only [guessDrawing] at h
    obtain rfl := Except.error.inj h
    simp
  | httpError s b =>
    simp only [guessDrawing] at h
    by_cases h4 : s = 404
    · rw [if_pos h4] at h
      obtain rfl := Except.error.inj h
      simp
    · rw [if_neg h4] at h
      by_cases h5 : s = 500
      · rw [if_pos h5] at h
        obtain rfl := Except.error.inj h
        simp
      · rw [if_neg h5] at h
        obtain rfl := Except.error.inj h
        simp
  | httpOkBadJson m =>
    simp only [guessDrawing] at h
    obtain rfl := Except.error.inj h
    simp
  | httpOk data =>
    simp only [guessDrawing] at h
    obtain ⟨_, _, rfl⟩ := parseContent_error_inv _ _ _ h
    simp

/-- Claim C2, witness: the timeout failure carries code TIMEOUT, a member
of the closed seven-kind set. -/
theorem c2_error_code_closed_witness :
    guessDrawing FetchOutcome.aborted =
      .error ⟨"TIMEOUT", "Ollama API request timed out after 120 seconds"⟩ ∧
    ("TIMEOUT" : String) ∈ (["MODEL_NOT_FOUND", "OLLAMA_SERVER_ERROR", "OLLAMA_API_ERROR",
        "TIMEOUT", "NETWORK_ERROR", "EMPTY_GUESS", "UNKNOWN_ERROR"] : List String) :=
  ⟨by decide,
   c2_error_code_closed FetchOutcome.aborted
     ⟨"TIMEOUT", "Ollama API request timed out after 120 seconds"⟩ (by decide)⟩

/-- Claim C3, counterexample: for the empty raw reply no candidate line
contains a confidence keyword (there are no candidate lines at all), yet
the resulting confidence is low, not medium — the medium default only
applies to replies that are not empty or whitespace-only. -/
theorem c3_counterexample :
    normalizer "" 0 = .ok ⟨"unclear", .low, 0⟩ ∧
    candidateLines (trimS "").data = [] ∧
    Confidence.low ≠ Confidence.medium := by
  decide

/-- Claim C3, amended: for every raw reply that is not empty or
whitespace-only and on which the normalizer succeeds, (1) if no
candidate line contains "high", "medium" or "low" as a case-insensitive
substring the resulting confidence is medium, and (2) the resulting
confidence is read off the first candidate line (the guess line
included) that contains such a substring. -/
theorem c3_confidence_scan (raw : String) (d : Nat) (r : GuessResult)
    (hne : trimS raw ≠ "") (hok : normalizer raw d = .ok r) :
    ((∀ l ∈ candidateLines (trimS raw).data, keywordLine l = false) →
      r.confidence = .medium) ∧
    (∀ pre line post, candidateLines (trimS raw).data = pre ++ line :: post →
      (∀ p ∈ pre, keywordLine p = false) → keywordLine line = true →
      includesSub (toLowerL line) (confKeyword r.confidence).data = true) := by
  obtain ⟨hg, rfl⟩ := parseContent_ok_inv (trimS raw) d r hne (by simpa [normalizer] using hok)
  constructor
  · intro hall
    show (extractConfidenceC (candidateLines (trimS raw).data)).getD .medium = .medium
    rw [extractConfidenceC_none _ hall]
    rfl
  · intro pre line post heq hpre hline
    obtain ⟨c, hc, hinc⟩ := extractConfidenceC_keyword_head line post hline
    show includesSub (toLowerL line)
        (confKeyword ((extractConfidenceC (candidateLines (trimS raw).data)).getD .medium)).data
        = true
    rw [heq, extractConfidenceC_append_skip pre _ hpre, hc]
    exact hinc

/-- Claim C3, witness: the reply "a red balloon" has no confidence
keyword on any candidate line and the normalizer defaults its
confidence to medium. -/
theorem c3_confidence_scan_witness :
    normalizer "a red balloon" 0 = .ok ⟨"a red balloon", .medium, 0⟩ ∧
    (⟨"a red balloon", Confidence.medium, 0⟩ : GuessResult).confidence = .medium := by
  have hok : normalizer "a red balloon" 0 = .ok ⟨"a red balloon", .medium, 0⟩ := by decide
  exact ⟨hok, (c3_confidence_scan "a red balloon" 0 _ (by decide) hok).1 (by decide)⟩

/-- Claim C4: for every raw reply text that is empty or whitespace-only
the normalizer succeeds with guess "unclear" and confidence low; it
never reports an error for such input. -/
theorem c4_blank_reply_unclear (raw : String) (d : Nat) (h : trimS raw = "") :
    normalizer raw d = .ok ⟨"unclear", .low, d⟩ := by
  simp only [normalizer, h]
  exact parseContent_empty d

/-- Claim C4, witness: a whitespace-only reply yields the unclear/low
fallback. -/
theorem c4_blank_reply_unclear_witness :
    normalizer "  \n " 5 = .ok ⟨"unclear", .low, 5⟩ :=
  c4_blank_reply_unclear "  \n " 5 (by decide)

/-- Claim C5: on every success path the guess is non-empty, and the
normalizer fails — always with kind EMPTY_GUESS — exactly when the raw
reply is non-empty after trimming but guess extraction yields the empty
string. -/
theorem c5_empty_guess_policy (raw : String) (d : Nat) :
    (∀ r, normalizer raw d = .ok r → r.guess ≠ "") ∧
    (trimS raw ≠ "" → extractGuessC (candidateLines (trimS raw).data) = [] →
      normalizer raw d = .error ⟨"EMPTY_GUESS", "Ollama returned empty guess"⟩) ∧
    (∀ e, normalizer raw d = .error e →
      e.code = "EMPTY_GUESS" ∧ trimS raw ≠ "" ∧
      extractGuessC (candidateLines (trimS raw).data) = []) := by
  refine ⟨?_, ?_, ?_⟩
  · intro r hr
    by_cases hne : trimS raw = ""
    · simp only [normalizer, hne, parseContent_empty] at hr
      obtain rfl := Except.ok.inj hr
      exact (by decide : ("unclear" : String) ≠ "")
    · obtain ⟨hg, rfl⟩ := parseContent_ok_inv (trimS raw) d r hne (by simpa [normalizer] using hr)
      show String.mk (extractGuessC (candidateLines (trimS raw).data)) ≠ ""
      intro hmk
      exact hg ((mk_eq_empty_iff _).mp hmk)
  · intro hne hg
    simp only [normalizer]
    exact parseContent_error_intro _ d hne hg
  · intro e he
    obtain ⟨hne, hg, rfl⟩ := parseContent_error_inv (trimS raw) d e (by simpa [normalizer] using he)
    exact ⟨rfl, hne, hg⟩

/-- Claim C5, witness: the reply consisting solely of the line "high"
fails with EMPTY_GUESS. -/
theorem c5_empty_guess_policy_witness :
    normalizer "high" 0 = .error ⟨"EMPTY_GUESS", "Ollama returned empty guess"⟩ :=
  (c5_empty_guess_policy "high" 0).2.1 (by decide) (by decide)

/-- Claim C6: a base64 payload carrying a data-URI header of the form
"data:", a non-empty semicolon-free mime type, then ";base64," has
exactly that header removed, and a payload on which the header pattern
does not match is passed through unchanged. -/
theorem c6_strip_data_uri (mime rest s : String) (hm : mime ≠ "")
    (hsemi : ∀ c ∈ mime.data, c ≠ ';') (hnop : matchDataUri s.data = none) :
    stripDataUriPrefix ("data:" ++ mime ++ ";base64," ++ rest) = rest ∧
    stripDataUriPrefix s = s := by
  constructor
  · simp only [ stripDataUriPrefix, matchDataUri_strip mime rest hm hsemi]
  · simp only [ stripDataUriPrefix, hnop]

/-- Claim C6, witness: a png data-URI header is stripped and a bare
payload is unchanged. -/
theorem c6_strip_data_uri_witness :
    stripDataUriPrefix ("data:" ++ "image/png" ++ ";base64," ++ "AAAA") = "AAAA" ∧
    stripDataUriPrefix "AAAA" = "AAAA" :=
  c6_strip_data_uri "image/png" "AAAA" "AAAA" (by decide) (by decide) (by decide)

/-- Claim C7: when the 120000-millisecond deadline fires and aborts the
fetch, the operation fails with kind TIMEOUT and produces no
GuessResult. -/
theorem c7_timeout :
    guessDrawing FetchOutcome.aborted =
      .error ⟨"TIMEOUT", "Ollama API request timed out after 120 seconds"⟩ ∧
    timeoutMs = 120000 ∧
    (guessDrawing FetchOutcome.aborted).toOption = none := by
  decide

/-- Claim C8: a completed HTTP 404 exchange whose body parses to an
error field m fails with kind MODEL_NOT_FOUND and the failure message
contains the backend text m. -/
theorem c8_model_not_found (m : String) (hm : m ≠ "") :
    guessDrawing (.httpError 404 (some (some m))) =
      .error ⟨"MODEL_NOT_FOUND", "Ollama model \x27qwen3-vl\x27 not found: " ++ m⟩ ∧
    includesSub ("Ollama model \x27qwen3-vl\x27 not found: " ++ m).data m.data = true := by
  constructor
  · simp [guessDrawing, errorMessageFor, hm]
  · rw [strDataAppend]
    exact includesSub_append _ _

/-- Claim C8, witness: the simulated 404 with backend text "model not
found". -/
theorem c8_model_not_found_witness :
    guessDrawing (.httpError 404 (some (some "model not found"))) =
      .error ⟨"MODEL_NOT_FOUND",
              "Ollama model \x27qwen3-vl\x27 not found: " ++ "model not found"⟩ ∧
    includesSub ("Ollama model \x27qwen3-vl\x27 not found: " ++ "model not found").data
      ("model not found" : String).data = true :=
  c8_model_not_found "model not found" (by decide)

/-- Claim C9: the normalizer is a pure function of the raw reply text
and the duration — equal inputs give identical results. -/
theorem c9_normalizer_deterministic (raw₁ raw₂ : String) (d₁ d₂ : Nat)
    (hraw : raw₁ = raw₂) (hd : d₁ = d₂) :
    normalizer raw₁ d₁ = normalizer raw₂ d₂ := by
  rw [hraw, hd]

/-- Claim C9, witness: two invocations on the same text agree. -/
theorem c9_normalizer_deterministic_witness :
    normalizer "cat\nhigh" 7 = normalizer "cat\nhigh" 7 :=
  c9_normalizer_deterministic "cat\nhigh" "cat\nhigh" 7 7 rfl rfl

/-- Claim C10: for every non-blank raw reply all of whose candidate
lines contain "high", "medium" or "low" as a case-insensitive substring
(as in "flower" followed by "high", where "flower" accidentally contains
"low"), guess extraction skips every line and the normalizer fails with
EMPTY_GUESS — even though "flower" is a word of the game's word list. -/
theorem c10_all_keyword_lines_empty_guess (raw : String) (d : Nat)
    (hne : trimS raw ≠ "")
    (hall : ∀ l ∈ candidateLines (trimS raw).data, keywordLine l = true) :
    normalizer raw d = .error ⟨"EMPTY_GUESS", "Ollama returned empty guess"⟩ ∧
    "flower" ∈ WORD_LIST := by
  refine ⟨?_, by decide⟩
  simp only [normalizer]
  exact parseContent_error_intro _ d hne (extractGuessC_all_keyword _ hall)

/-- Claim C10, witness: the reply joining "flower" and "high" fails with
EMPTY_GUESS although it names a word of the word list. -/
theorem c10_all_keyword_lines_empty_guess_witness :
    normalizer "flower\nhigh" 0 = .error ⟨"EMPTY_GUESS", "Ollama returned empty guess"⟩ ∧
    "flower" ∈ WORD_LIST :=
  c10_all_keyword_lines_empty_guess "flower\nhigh" 0 (by decide) (by decide)
